import Mathlib

/-!
Verification of the databend new-pipeline aggregator transform, the
pipeline builder, and the GitHub storage connector, against a shallow
embedding of the source files under `src/query/src`.

Conventions of the embedding:
* Rust `Result<T>` becomes `Except ErrorCode T`.
* A Rust method mutating `&mut self` and returning `Result<T>` becomes a
  function `State → Except ErrorCode T × State`: mutations performed
  before an early `?` return are preserved in the returned state, exactly
  as they are in Rust.
* A `panic!`-style abort (`unimplemented!()`, `Option::unwrap` on `None`)
  is not a `Result` error; fallible constructors that may also abort
  return the three-valued `Outcome`.
* The ports (`port.rs` is not part of the given sources) are modelled
  from the spec, see `Port` below.
-/

/-- Error codes of `common_exception::ErrorCode`; only the constructors the
embedded code distinguishes are separated, every other code is `other`. -/
inductive ErrorCode where
  | logicalError (msg : String)
  | unexpectedError (msg : String)
  | unImplement (msg : String)
  | other (code : Nat) (msg : String)
deriving DecidableEq, Repr

/-- `common_datablocks::DataBlock`: an immutable columnar batch, a schema
(field names) plus the columns. Its contents are opaque to the aggregator
transform; the GitHub source builds one with `DataBlock::create`. -/
structure DataBlock where
  schema : List String
  columns : List (List String)
deriving DecidableEq, Repr

/-- `DataBlock::create(schema, columns)`. -/
def DataBlock.create (schema : List String) (columns : List (List String)) : DataBlock :=
  ⟨schema, columns⟩

instance {ε α : Type} [DecidableEq ε] [DecidableEq α] : DecidableEq (Except ε α) := fun x y =>
  match x, y with
  | .ok a, .ok b => if h : a = b then .isTrue (by rw [h]) else .isFalse (by simp [h])
  | .error a, .error b => if h : a = b then .isTrue (by rw [h]) else .isFalse (by simp [h])
  | .ok _, .error _ => .isFalse (by simp)
  | .error _, .ok _ => .isFalse (by simp)

/-- Processor status from `processor.rs` (`Event`). -/
inductive Event where
  | NeedData
  | NeedConsume
  | Sync
  | Async
  | Finished
deriving DecidableEq, Repr

/-- Modelled from the spec: `port.rs` is not among the given sources. A
port "holds at most one pending data batch (or a terminal error/end
signal), a consumer-wants-data flag ... plus an independent finished flag
settable from either end" (spec §3), so the slot carries
`Except ErrorCode DataBlock`. The spec invariant "data present and
finished-by-producer cannot both be asserted without the data having been
drained first" is realised by the input-side `is_finished` view below. -/
structure Port where
  data : Option (Except ErrorCode DataBlock)
  finished : Bool
  need_data : Bool
deriving DecidableEq, Repr

/-- Modelled from the spec: `has_data` queries the slot (spec §4.1). -/
def Port.has_data (p : Port) : Bool :=
  p.data.isSome

/-- Modelled from the spec: `finish` is idempotent and terminal (§4.1). -/
def Port.finish (p : Port) : Port :=
  { p with finished := true }

/-- Modelled from the spec: the consumer signals it wants more (§4.1). -/
def Port.set_need_data (p : Port) : Port :=
  { p with need_data := true }

/-- Modelled from the spec: `pull_data` takes the pending batch or
terminal signal, clearing the slot (§4.1). -/
def Port.pull_data (p : Port) : Option (Except ErrorCode DataBlock) × Port :=
  (p.data, { p with data := none })

/-- Modelled from the spec: `push_data` deposits a batch or terminal
signal and "fails if the port is already full or finished" (§4.1); the
consumer's request is consumed by the push. -/
def Port.push_data (p : Port) (r : Except ErrorCode DataBlock) : Port :=
  if p.data.isSome || p.finished then p
  else { p with data := some r, need_data := false }

/-- Modelled from the spec: the producer may push once the consumer has
asked for data, the slot is free and the channel is alive ("a producer may
push only when can_push is observed true; `can_push()` is false whenever
the slot is occupied", spec §5, §8). -/
def Port.can_push (p : Port) : Bool :=
  p.need_data && !p.data.isSome && !p.finished

/-- Modelled from the spec: the consumer-side finished view. By the §3
invariant a port with an undrained batch is not yet finished for its
consumer, so `InputPort::is_finished` holds only once the slot is empty. -/
def InputPort.is_finished (p : Port) : Bool :=
  p.finished && !p.data.isSome

/-- Modelled from the spec: the producer-side finished view is the raw
terminal flag, set by the downstream consumer to cancel (§5). -/
def OutputPort.is_finished (p : Port) : Bool :=
  p.finished

/-- The `Aggregator` trait of `transform_aggregator.rs`, as a dictionary:
`consume` folds one data batch into the accumulated state, `generate`
yields the next output batch (`none` = exhausted) and the updated state. -/
structure Aggregator (γ : Type) where
  name : String
  consume : γ → DataBlock → Except ErrorCode γ
  generate : γ → Except ErrorCode (Option DataBlock × γ)

/-- `ConsumeState` of `transform_aggregator.rs` (its two `Arc` port fields
are clones of the processor's shared ports and live once in
`AggregatorWorld`). -/
structure ConsumeState (γ : Type) where
  inner : γ
  input_data_block : Option DataBlock
deriving DecidableEq, Repr

/-- `GenerateState` of `transform_aggregator.rs` (ports as above). -/
structure GenerateState (γ : Type) where
  inner : γ
  is_finished : Bool
  output_data_block : Option DataBlock
deriving DecidableEq, Repr

/-- The `AggregatorTransform` enum of `transform_aggregator.rs`. -/
inductive AggregatorTransform (γ : Type) where
  | ConsumeData (s : ConsumeState γ)
  | Generate (s : GenerateState γ)
  | Finished
deriving DecidableEq, Repr

/-- The processor together with the two shared ports every state variant
holds `Arc` clones of: `input_port` and `output_port` are mutated in place
through the `Arc`s in Rust, so they are represented once, beside the
state value. -/
structure AggregatorWorld (γ : Type) where
  transform : AggregatorTransform γ
  input_port : Port
  output_port : Port
deriving DecidableEq, Repr

/-- `AggregatorTransform::create`: the processor starts in `ConsumeData`
with no pending input batch. -/
def AggregatorTransform.create (input_port output_port : Port) (inner : γ) :
    Except ErrorCode (AggregatorWorld γ) :=
  .ok ⟨.ConsumeData ⟨inner, none⟩, input_port, output_port⟩

/-- `AggregatorTransform::to_generate`: consumes a `ConsumeData` state by
value and produces the `Generate` state (`is_finished := false`, no
pending output); from any other state it is a logical error. -/
def AggregatorTransform.to_generate :
    AggregatorTransform γ → Except ErrorCode (AggregatorTransform γ)
  | .ConsumeData s => .ok (.Generate ⟨s.inner, false, none⟩)
  | _ => .error (.logicalError "")

/-- `AggregatorTransform::consume_event`. The Rust body swaps `self` with
`Finished`, runs `to_generate` and swaps back; on the (dead) error branch
of `to_generate` the swap leaves `self = Finished`, which the model
reproduces. `pull_data().unwrap()` on an empty slot would panic; the
branch is unreachable because it runs under `has_data`. -/
def AggregatorWorld.consume_event (w : AggregatorWorld γ) :
    Except ErrorCode Event × AggregatorWorld γ :=
  match w.transform with
  | .ConsumeData state =>
    if state.input_data_block.isSome then (.ok .Sync, w)
    else if InputPort.is_finished w.input_port then
      match AggregatorTransform.to_generate w.transform with
      | .ok t' => (.ok .Sync, { w with transform := t' })
      | .error e => (.error e, { w with transform := .Finished })
    else if w.input_port.has_data then
      match w.input_port.pull_data with
      | (some (.ok b), p') =>
        (.ok .Sync,
          { w with transform := .ConsumeData { state with input_data_block := some b },
                   input_port := p' })
      | (some (.error e), p') => (.error e, { w with input_port := p' })
      | (none, p') =>
        (.error (.logicalError "unreachable: unwrap of empty slot"),
          { w with input_port := p' })
    else
      (.ok .NeedData, { w with input_port := w.input_port.set_need_data })
  | _ => (.error (.logicalError "It's a bug"), w)

/-- `AggregatorTransform::generate_event`. -/
def AggregatorWorld.generate_event (w : AggregatorWorld γ) :
    Except ErrorCode Event × AggregatorWorld γ :=
  match w.transform with
  | .Generate state =>
    if OutputPort.is_finished w.output_port then
      (.ok .Finished, { w with transform := .Finished })
    else if !w.output_port.can_push then (.ok .NeedConsume, w)
    else
      match state.output_data_block with
      | some block =>
        (.ok .NeedConsume,
          { w with transform := .Generate { state with output_data_block := none },
                   output_port := w.output_port.push_data (.ok block) })
      | none =>
        if state.is_finished then
          (.ok .Finished,
            { w with transform := .Finished,
                     output_port :=
                       if !OutputPort.is_finished w.output_port then
                         w.output_port.finish
                       else w.output_port })
        else (.ok .Sync, w)
  | _ => (.error (.logicalError "It's a bug"), w)

/-- `Processor::event` for `AggregatorTransform`. -/
def AggregatorWorld.event (w : AggregatorWorld γ) :
    Except ErrorCode Event × AggregatorWorld γ :=
  match w.transform with
  | .Finished => (.ok .Finished, w)
  | .Generate _ => w.generate_event
  | .ConsumeData _ => w.consume_event

/-- `Processor::process` for `AggregatorTransform`: dispatches to
`ConsumeState::consume` (take the pending batch, feed it to the inner
aggregator) or `GenerateState::generate` (ask the inner aggregator for
the next batch, record exhaustion). The taken input batch stays taken
even when the inner `consume` fails, as in Rust. -/
def AggregatorWorld.process (A : Aggregator γ) (w : AggregatorWorld γ) :
    Except ErrorCode Unit × AggregatorWorld γ :=
  match w.transform with
  | .Finished => (.ok (), w)
  | .ConsumeData state =>
    match state.input_data_block with
    | none => (.ok (), w)
    | some input_data =>
      match A.consume state.inner input_data with
      | .ok inner' =>
        (.ok (), { w with transform := .ConsumeData ⟨inner', none⟩ })
      | .error e =>
        (.error e, { w with transform := .ConsumeData ⟨state.inner, none⟩ })
  | .Generate state =>
    match A.generate state.inner with
    | .error e => (.error e, w)
    | .ok (generate_data, inner') =>
      let fin := if generate_data.isNone then true else state.is_finished
      (.ok (), { w with transform := .Generate ⟨inner', fin, generate_data⟩ })

/-- Outcome of a Rust constructor that may also abort: `ok`/`err` mirror
`Result`, `panicked` marks an abort (`unimplemented!()`, `unwrap`). -/
inductive Outcome (α : Type) where
  | ok (a : α)
  | err (e : ErrorCode)
  | panicked (msg : String)
deriving DecidableEq, Repr

/-- `AggregatorParams` (declared outside the given sources): the fields
`transform_aggregator.rs` reads — the group-by column names and the
aggregate-function list (functions identified by name; their math is
opaque to the transform). -/
structure AggregatorParams where
  group_columns_name : List String
  aggregate_functions : List String
deriving DecidableEq, Repr

/-- `common_datablocks::HashMethodKind`: the per-query group-key
representation (fixed-width 8/16/32/64-bit keys or serialized bytes). -/
inductive HashMethodKind where
  | KeysU8
  | KeysU16
  | KeysU32
  | KeysU64
  | Serializer
deriving DecidableEq, Repr

/-- `AggregatorTransformParams`: the aggregator configuration plus the
chosen key representation (its own port fields, used only by the
partial-phase constructor, are omitted). -/
structure AggregatorTransformParams where
  aggregator_params : AggregatorParams
  method : HashMethodKind
deriving DecidableEq, Repr

/-- Modelled from the spec: `FinalSingleKeyAggregator` (its module is not
among the given sources) "tracks exactly one global accumulator set"
keyed by the aggregate-function list; `try_create` succeeds for any
params. -/
structure FinalSingleKeyAggregator where
  funcs : List String
deriving DecidableEq, Repr

/-- Modelled from the spec: creation of the single-key final aggregator. -/
def FinalSingleKeyAggregator.try_create (params : AggregatorParams) :
    Except ErrorCode FinalSingleKeyAggregator :=
  .ok ⟨params.aggregate_functions⟩

/-- `TransformAggregator::try_create_final`: with an empty group-by list
it wraps a `FinalSingleKeyAggregator` into a fresh `ConsumeData`
processor; with a non-empty list the source aborts via
`unimplemented!()`. -/
def TransformAggregator.try_create_final (input_port output_port : Port)
    (transform_params : AggregatorTransformParams) :
    Outcome (AggregatorWorld FinalSingleKeyAggregator) :=
  let aggregator_params := transform_params.aggregator_params
  if aggregator_params.group_columns_name.isEmpty then
    match FinalSingleKeyAggregator.try_create aggregator_params with
    | .error e => .err e
    | .ok inner =>
      match AggregatorTransform.create input_port output_port inner with
      | .ok w => .ok w
      | .error e => .err e
  else .panicked "not implemented"

/-- One stage recorded while building a pipeline: the kind of transform
pipe a visit appends, a source pipe, or a fan adapter from `resize`. -/
inductive TransformKind where
  | expressionTransform
  | filterTransform
  | aggregatorPartialTransform
  | aggregatorFinalTransform
deriving DecidableEq, Repr

/-- Modelled from the spec: `NewPipeline` (not among the given sources)
as the ordered trace of pipes appended by the builder; `add_transform`
and `add_pipe` append a stage, `resize(k)` appends a fan adapter. -/
inductive PipeAction where
  | sourcePipe
  | transformPipe (kind : TransformKind)
  | resizePipe (lanes : Nat)
deriving DecidableEq, Repr

/-- The plan nodes whose visits appear in `pipeline_builder.rs`;
`otherPlan` stands for the node kinds `visit_plan_node` rejects with
`UnImplement`. -/
inductive PlanNode where
  | readSourcePlan
  | expressionPlan (input : PlanNode)
  | filterPlan (input : PlanNode)
  | aggregatorPartialPlan (input : PlanNode)
  | aggregatorFinalPlan (input : PlanNode)
  | otherPlan
deriving DecidableEq, Repr

/-- `QueryPipelineBuilder`'s recursive visit (`visit_plan_node` and the
visitors of `pipeline_builder.rs`), threading the pipeline trace: every
visit first recurses into the node's input, then appends its own pipe;
`visit_aggregate_final` additionally calls `resize(1)` between the two. -/
def visit_plan_node : PlanNode → List PipeAction → Except ErrorCode (List PipeAction)
  | .readSourcePlan, p => .ok (p ++ [.sourcePipe])
  | .expressionPlan input, p => do
    let p1 ← visit_plan_node input p
    .ok (p1 ++ [.transformPipe .expressionTransform])
  | .filterPlan input, p => do
    let p1 ← visit_plan_node input p
    .ok (p1 ++ [.transformPipe .filterTransform])
  | .aggregatorPartialPlan input, p => do
    let p1 ← visit_plan_node input p
    .ok (p1 ++ [.transformPipe .aggregatorPartialTransform])
  | .aggregatorFinalPlan input, p => do
    let p1 ← visit_plan_node input p
    let p2 := p1 ++ [.resizePipe 1]
    .ok (p2 ++ [.transformPipe .aggregatorFinalTransform])
  | .otherPlan, _ => .error (.unImplement "")

/-- `GithubTableType` of `github_table.rs` (strum, snake_case). -/
inductive GithubTableType where
  | Comments
  | Info
  | Issues
  | PullRequests
deriving DecidableEq, Repr

/-- strum `Display` with `serialize_all = "snake_case"`. -/
def GithubTableType.toString : GithubTableType → String
  | .Comments => "comments"
  | .Info => "info"
  | .Issues => "issues"
  | .PullRequests => "pull_requests"

/-- strum `EnumString` with `serialize_all = "snake_case"`: `parse`
accepts exactly the serialized names (`none` = strum `ParseError`). -/
def GithubTableType.fromStr : String → Option GithubTableType
  | "comments" => some .Comments
  | "info" => some .Info
  | "issues" => some .Issues
  | "pull_requests" => some .PullRequests
  | _ => none

/-- `RepoTableOptions` of `repo.rs`. -/
structure RepoTableOptions where
  repo : String
  owner : String
  token : String
  table_type : GithubTableType
deriving DecidableEq, Repr

/-- `std::collections::BTreeMap<String, String>` through the operations
`repo.rs` uses: `insert` replaces the value of an existing key or adds
the entry, `get` looks the key up. -/
def StringMap := List (String × String)

/-- `BTreeMap::insert`. -/
def StringMap.insert (m : StringMap) (k v : String) : StringMap :=
  match m with
  | [] => [(k, v)]
  | (k', v') :: rest =>
    if k = k' then (k, v) :: rest else (k', v') :: StringMap.insert rest k v

/-- `BTreeMap::get`. -/
def StringMap.get (m : StringMap) (k : String) : Option String :=
  match m with
  | [] => none
  | (k', v') :: rest => if k = k' then some v' else StringMap.get rest k

/-- `From<RepoTableOptions> for BTreeMap<String, String>`: inserts the
owner, repo, token and serialized table_type under the four key
constants. -/
def RepoTableOptions.toMap (options : RepoTableOptions) : StringMap :=
  StringMap.insert
    (StringMap.insert
      (StringMap.insert
        (StringMap.insert [] "owner" options.owner)
        "repo" options.repo)
      "token" options.token)
    "table_type" options.table_type.toString

/-- `TryFrom<&BTreeMap<String, String>> for RepoTableOptions`: each key
must be present, and the table_type value must parse; otherwise an
`UnexpectedError` is produced. -/
def RepoTableOptions.tryFromMap (options : StringMap) :
    Except ErrorCode RepoTableOptions :=
  match options.get "owner" with
  | none => .error (.unexpectedError "Github engine table missing owner key")
  | some owner =>
    match options.get "repo" with
    | none => .error (.unexpectedError "Github engine table missing repo key")
    | some repo =>
      match options.get "token" with
      | none => .error (.unexpectedError "Github engine table missing token key")
      | some token =>
        match options.get "table_type" with
        | none =>
          .error (.unexpectedError "Github engine table missing table_type key")
        | some raw =>
          match GithubTableType.fromStr raw with
          | none =>
            .error (.unexpectedError "Unsupported Github table type")
          | some table_type => .ok ⟨repo, owner, token, table_type⟩

/-- `GithubSource` of `github_table.rs` (`ctx` and the output port are
held by the surrounding `AsyncSourcer`, not read by `generate`). -/
structure GithubSource where
  finish : Bool
  schema : List String
  options : RepoTableOptions
deriving DecidableEq, Repr

/-- `GithubSource::create` builds the source with `finish := false`. -/
def GithubSource.create (schema : List String) (options : RepoTableOptions) :
    GithubSource :=
  ⟨false, schema, options⟩

/-- `GithubSource::generate` (`AsyncSource` impl): the external
`get_data_from_github` I/O is passed in as its result `fetched`. The
`finish` flag is set before the fetch, so a failing fetch also leaves the
source exhausted. -/
def GithubSource.generate (fetched : Except ErrorCode (List (List String)))
    (s : GithubSource) : Except ErrorCode (Option DataBlock) × GithubSource :=
  if s.finish then (.ok none, s)
  else
    let s' := { s with finish := true }
    match fetched with
    | .error e => (.error e, s')
    | .ok arrays => (.ok (some (DataBlock.create s.schema arrays)), s')

/-- A port with empty slot and cleared flags, for concrete instances. -/
def emptyPort : Port :=
  ⟨none, false, false⟩

/-- A trivial inner aggregator over `Unit`, for concrete instances. -/
def unitAggregator : Aggregator Unit :=
  ⟨"unit-aggregator", fun u _ => .ok u, fun u => .ok (none, u)⟩

/-- An inner aggregator whose operations always fail, for concrete
instances exercising the error path. -/
def failingAggregator : Aggregator Unit :=
  ⟨"failing-aggregator", fun _ _ => .error (.other 1001 "consume failed"),
    fun _ => .error (.other 1002 "generate failed")⟩

/-- Whether a transform value is still in its `ConsumeData` state. -/
def isConsumeData : AggregatorTransform γ → Bool
  | .ConsumeData _ => true
  | _ => false

/-- One driver interaction with the processor: an `event()` query or a
`process()` step. -/
inductive DriverCall where
  | callEvent
  | callProcess
deriving DecidableEq, Repr

/-- Runs an interleaved sequence of `event()`/`process()` calls, keeping
only the evolving processor state. -/
def runCalls (A : Aggregator γ) : AggregatorWorld γ → List DriverCall → AggregatorWorld γ
  | w, [] => w
  | w, .callEvent :: cs => runCalls A (w.event).2 cs
  | w, .callProcess :: cs => runCalls A (w.process A).2 cs

theorem event_of_finished {γ : Type} (w : AggregatorWorld γ)
    (h : w.transform = .Finished) : w.event = (.ok .Finished, w) := by
  rcases w with ⟨t, ip, op⟩
  simp only at h
  subst h
  rfl

theorem process_of_finished {γ : Type} (A : Aggregator γ) (w : AggregatorWorld γ)
    (h : w.transform = .Finished) : w.process A = (.ok (), w) := by
  rcases w with ⟨t, ip, op⟩
  simp only at h
  subst h
  rfl

theorem transform_finished_of_event_finished {γ : Type} (w : AggregatorWorld γ)
    (h : (w.event).1 = .ok .Finished) : (w.event).2.transform = .Finished := by
  rcases w with ⟨t, ip, op⟩
  cases t with
  | Finished => rfl
  | ConsumeData s =>
    simp only [AggregatorWorld.event, AggregatorWorld.consume_event,
      AggregatorTransform.to_generate] at h ⊢
    split at h <;> try simp_all
    split at h <;> try simp_all
    split at h <;> try simp_all
    split at h <;> simp_all
  | Generate s =>
    simp only [AggregatorWorld.event, AggregatorWorld.generate_event] at h ⊢
    split at h <;> try simp_all
    split at h <;> try simp_all
    split at h <;> try simp_all
    split at h <;> simp_all

theorem runCalls_finished {γ : Type} (A : Aggregator γ) (calls : List DriverCall) :
    ∀ w : AggregatorWorld γ, w.transform = .Finished →
      (runCalls A w calls).transform = .Finished := by
  induction calls with
  | nil => intro w h; exact h
  | cons c cs ih =>
    intro w h
    cases c with
    | callEvent =>
      have he := event_of_finished w h
      simp only [runCalls, he]
      exact ih w h
    | callProcess =>
      have hp := process_of_finished A w h
      simp only [runCalls, hp]
      exact ih w h

/-- C1 counterexample: `TransformAggregator::try_create_final` does not
return `Ok` for every `AggregatorParams` — with a non-empty group-by
column list the construction aborts through `unimplemented!()`, so the
path is not total. -/
theorem c1_counterexample :
    TransformAggregator.try_create_final emptyPort emptyPort
      ⟨⟨["k"], ["count"]⟩, .KeysU8⟩ = .panicked "not implemented" := by
  rfl

/-- C1 (amended): `try_create_final` returns `Ok` with a fresh
`ConsumeData` processor wrapping the single-key final-merge aggregator
exactly when `group_columns_name` is empty; for a non-empty group-by
list it aborts via `unimplemented!()`. -/
theorem c1_try_create_final_cases (ip op : Port) (ap : AggregatorParams)
    (m : HashMethodKind) :
    (ap.group_columns_name = [] →
      TransformAggregator.try_create_final ip op ⟨ap, m⟩ =
        .ok ⟨.ConsumeData ⟨⟨ap.aggregate_functions⟩, none⟩, ip, op⟩) ∧
    (ap.group_columns_name ≠ [] →
      TransformAggregator.try_create_final ip op ⟨ap, m⟩ =
        .panicked "not implemented") := by
  constructor
  · intro h
    simp [TransformAggregator.try_create_final, h,
      FinalSingleKeyAggregator.try_create, AggregatorTransform.create]
  · intro h
    cases hg : ap.group_columns_name with
    | nil => exact absurd hg h
    | cons a l =>
      simp [TransformAggregator.try_create_final, hg]

/-- C1 witness. -/
theorem c1_witness :
    TransformAggregator.try_create_final emptyPort emptyPort
      ⟨⟨[], ["count"]⟩, .KeysU8⟩ =
      .ok ⟨.ConsumeData ⟨⟨["count"]⟩, none⟩, emptyPort, emptyPort⟩ :=
  (c1_try_create_final_cases emptyPort emptyPort ⟨[], ["count"]⟩ .KeysU8).1 rfl

/-- C2 counterexample: a `ConsumeData` transform with no pending batch,
unfinished input port and a port slot that holds data — here the terminal
error signal an upstream processor deposited — does not return `Sync`:
`consume_event` pulls the slot and propagates the error (the `?` on
`pull_data().unwrap()?`). -/
theorem c2_counterexample :
    Port.has_data ⟨some (.error (.other 1001 "upstream failed")), false, false⟩ = true ∧
    InputPort.is_finished ⟨some (.error (.other 1001 "upstream failed")), false, false⟩ = false ∧
    (AggregatorWorld.event
      ⟨.ConsumeData ⟨(), none⟩,
        ⟨some (.error (.other 1001 "upstream failed")), false, false⟩,
        emptyPort⟩).1 ≠ .ok Event.Sync := by
  refine ⟨rfl, rfl, ?_⟩
  intro h
  cases h

/-- C2 (amended): in `ConsumeData`, `event()` follows exactly this
precedence: a pending input batch returns `Sync`; a finished input port
transitions to `Generate` and returns `Sync`; a port slot holding data is
pulled — a proper batch lands in the pending-input slot and returns
`Sync`, while a terminal error signal is propagated as the event's error;
otherwise the port is asked for data and `NeedData` is returned. -/
theorem c2_consume_event_cases {γ : Type} (s : ConsumeState γ) (ip op : Port) :
    (s.input_data_block.isSome = true →
      AggregatorWorld.event ⟨.ConsumeData s, ip, op⟩ =
        (.ok .Sync, ⟨.ConsumeData s, ip, op⟩)) ∧
    (s.input_data_block = none → InputPort.is_finished ip = true →
      AggregatorWorld.event ⟨.ConsumeData s, ip, op⟩ =
        (.ok .Sync, ⟨.Generate ⟨s.inner, false, none⟩, ip, op⟩)) ∧
    (s.input_data_block = none → InputPort.is_finished ip = false →
      ∀ b, ip.data = some (.ok b) →
        AggregatorWorld.event ⟨.ConsumeData s, ip, op⟩ =
          (.ok .Sync, ⟨.ConsumeData ⟨s.inner, some b⟩, { ip with data := none }, op⟩)) ∧
    (s.input_data_block = none → InputPort.is_finished ip = false →
      ∀ e, ip.data = some (.error e) →
        AggregatorWorld.event ⟨.ConsumeData s, ip, op⟩ =
          (.error e, ⟨.ConsumeData s, { ip with data := none }, op⟩)) ∧
    (s.input_data_block = none → InputPort.is_finished ip = false → ip.data = none →
      AggregatorWorld.event ⟨.ConsumeData s, ip, op⟩ =
        (.ok .NeedData, ⟨.ConsumeData s, Port.set_need_data ip, op⟩)) := by
  refine ⟨?_, ?_, ?_, ?_, ?_⟩
  · intro h1
    simp [AggregatorWorld.event, AggregatorWorld.consume_event, h1]
  · intro h1 h2
    simp [AggregatorWorld.event, AggregatorWorld.consume_event,
      AggregatorTransform.to_generate, h1, h2]
  · intro h1 h2 b hb
    simp [AggregatorWorld.event, AggregatorWorld.consume_event, h1, h2,
      Port.has_data, Port.pull_data, hb]
  · intro h1 h2 e he
    simp [AggregatorWorld.event, AggregatorWorld.consume_event, h1, h2,
      Port.has_data, Port.pull_data, he]
  · intro h1 h2 hn
    simp [AggregatorWorld.event, AggregatorWorld.consume_event, h1, h2,
      Port.has_data, hn]

/-- C2 witness (for the amended claim's pull branch). -/
theorem c2_witness :
    AggregatorWorld.event
      ⟨.ConsumeData ⟨(), none⟩,
        ⟨some (.ok ⟨["c"], [["v"]]⟩), false, false⟩, emptyPort⟩ =
      (.ok .Sync,
        ⟨.ConsumeData ⟨(), some ⟨["c"], [["v"]]⟩⟩, ⟨none, false, false⟩, emptyPort⟩) :=
  (c2_consume_event_cases ⟨(), none⟩ ⟨some (.ok ⟨["c"], [["v"]]⟩), false, false⟩
    emptyPort).2.2.1 rfl rfl ⟨["c"], [["v"]]⟩ rfl

/-- C3: in `Generate`, `event()` follows exactly this precedence: a
finished output port transitions the transform to `Finished`; a
back-pressured port (`can_push` false) returns `NeedConsume`; a pending
output batch is pushed to the output port and `NeedConsume` is returned;
an exhausted inner generator finishes the output port and transitions to
`Finished`; otherwise `Sync` is returned. -/
theorem c3_generate_event_cases {γ : Type} (s : GenerateState γ) (ip op : Port) :
    (OutputPort.is_finished op = true →
      AggregatorWorld.event ⟨.Generate s, ip, op⟩ =
        (.ok .Finished, ⟨.Finished, ip, op⟩)) ∧
    (OutputPort.is_finished op = false → Port.can_push op = false →
      AggregatorWorld.event ⟨.Generate s, ip, op⟩ =
        (.ok .NeedConsume, ⟨.Generate s, ip, op⟩)) ∧
    (OutputPort.is_finished op = false → Port.can_push op = true →
      ∀ b, s.output_data_block = some b →
        AggregatorWorld.event ⟨.Generate s, ip, op⟩ =
          (.ok .NeedConsume,
            ⟨.Generate ⟨s.inner, s.is_finished, none⟩, ip,
              Port.push_data op (.ok b)⟩)) ∧
    (OutputPort.is_finished op = false → Port.can_push op = true →
      s.output_data_block = none → s.is_finished = true →
        AggregatorWorld.event ⟨.Generate s, ip, op⟩ =
          (.ok .Finished, ⟨.Finished, ip, Port.finish op⟩)) ∧
    (OutputPort.is_finished op = false → Port.can_push op = true →
      s.output_data_block = none → s.is_finished = false →
        AggregatorWorld.event ⟨.Generate s, ip, op⟩ =
          (.ok .Sync, ⟨.Generate s, ip, op⟩)) := by
  refine ⟨?_, ?_, ?_, ?_, ?_⟩
  · intro h1
    simp [AggregatorWorld.event, AggregatorWorld.generate_event, h1]
  · intro h1 h2
    simp [AggregatorWorld.event, AggregatorWorld.generate_event, h1, h2]
  · intro h1 h2 b hb
    simp [AggregatorWorld.event, AggregatorWorld.generate_event, h1, h2, hb]
  · intro h1 h2 h3 h4
    simp [AggregatorWorld.event, AggregatorWorld.generate_event, h1, h2, h3, h4]
  · intro h1 h2 h3 h4
    simp [AggregatorWorld.event, AggregatorWorld.generate_event, h1, h2, h3, h4]

/-- C3 witness (for the push branch). -/
theorem c3_witness :
    AggregatorWorld.event
      ⟨.Generate ⟨(), false, some ⟨["c"], [["v"]]⟩⟩, emptyPort,
        ⟨none, false, true⟩⟩ =
      (.ok .NeedConsume,
        ⟨.Generate ⟨(), false, none⟩, emptyPort,
          Port.push_data ⟨none, false, true⟩ (.ok ⟨["c"], [["v"]]⟩)⟩) :=
  (c3_generate_event_cases ⟨(), false, some ⟨["c"], [["v"]]⟩⟩ emptyPort
    ⟨none, false, true⟩).2.2.1 rfl rfl ⟨["c"], [["v"]]⟩ rfl

/-- C4: when the producer has called `finish()` on the input port while
an unread batch still sits in its slot, the transform's next cycles first
pull the batch (`Sync`), then consume it into the inner aggregator, and
only then — the port slot now drained — treat the input as exhausted and
transition to `Generate`; the batch is not dropped. -/
theorem c4_drain_pending_before_generate {γ : Type} (A : Aggregator γ)
    (inner inner' : γ) (b : DataBlock) (nd : Bool) (op : Port)
    (hc : A.consume inner b = .ok inner') :
    AggregatorWorld.event ⟨.ConsumeData ⟨inner, none⟩, ⟨some (.ok b), true, nd⟩, op⟩ =
      (.ok .Sync, ⟨.ConsumeData ⟨inner, some b⟩, ⟨none, true, nd⟩, op⟩) ∧
    AggregatorWorld.process A ⟨.ConsumeData ⟨inner, some b⟩, ⟨none, true, nd⟩, op⟩ =
      (.ok (), ⟨.ConsumeData ⟨inner', none⟩, ⟨none, true, nd⟩, op⟩) ∧
    AggregatorWorld.event ⟨.ConsumeData ⟨inner', none⟩, ⟨none, true, nd⟩, op⟩ =
      (.ok .Sync, ⟨.Generate ⟨inner', false, none⟩, ⟨none, true, nd⟩, op⟩) := by
  refine ⟨?_, ?_, ?_⟩
  · rfl
  · simp [AggregatorWorld.process, hc]
  · rfl

/-- C4 witness. -/
theorem c4_witness :
    AggregatorWorld.event
      ⟨.ConsumeData ⟨(), none⟩, ⟨some (.ok ⟨["c"], [["v"]]⟩), true, false⟩, emptyPort⟩ =
      (.ok .Sync,
        ⟨.ConsumeData ⟨(), some ⟨["c"], [["v"]]⟩⟩, ⟨none, true, false⟩, emptyPort⟩) ∧
    AggregatorWorld.process unitAggregator
      ⟨.ConsumeData ⟨(), some ⟨["c"], [["v"]]⟩⟩, ⟨none, true, false⟩, emptyPort⟩ =
      (.ok (), ⟨.ConsumeData ⟨(), none⟩, ⟨none, true, false⟩, emptyPort⟩) ∧
    AggregatorWorld.event ⟨.ConsumeData ⟨(), none⟩, ⟨none, true, false⟩, emptyPort⟩ =
      (.ok .Sync, ⟨.Generate ⟨(), false, none⟩, ⟨none, true, false⟩, emptyPort⟩) :=
  c4_drain_pending_before_generate unitAggregator () () ⟨["c"], [["v"]]⟩ false
    emptyPort rfl

/-- C5: `to_generate` succeeds only from `ConsumeData`, moving the inner
aggregator value across unchanged into a `Generate` state whose
`is_finished` starts `false` with no pending output; from `Generate` or
`Finished` it yields a logical error. The `event()` step performing the
transition leaves both ports unchanged, and once the transform has left
`ConsumeData` neither `event()` nor `process()` ever re-enters it, so the
transition happens at most once. -/
theorem c5_to_generate_unique_transition {γ : Type} (A : Aggregator γ) :
    (∀ s : ConsumeState γ,
      AggregatorTransform.to_generate (.ConsumeData s) =
        .ok (.Generate ⟨s.inner, false, none⟩)) ∧
    (∀ s : GenerateState γ,
      AggregatorTransform.to_generate (.Generate s) = .error (.logicalError "")) ∧
    (AggregatorTransform.to_generate (.Finished : AggregatorTransform γ) =
      .error (.logicalError "")) ∧
    (∀ (s : ConsumeState γ) (ip op : Port),
      s.input_data_block = none → InputPort.is_finished ip = true →
        AggregatorWorld.event ⟨.ConsumeData s, ip, op⟩ =
          (.ok .Sync, ⟨.Generate ⟨s.inner, false, none⟩, ip, op⟩)) ∧
    (∀ w : AggregatorWorld γ, isConsumeData w.transform = false →
      isConsumeData (w.event).2.transform = false ∧
      isConsumeData ((w.process A).2).transform = false) := by
  refine ⟨fun s => rfl, fun s => rfl, rfl, ?_, ?_⟩
  · intro s ip op h1 h2
    simp [AggregatorWorld.event, AggregatorWorld.consume_event,
      AggregatorTransform.to_generate, h1, h2]
  · intro w h
    rcases w with ⟨t, ip, op⟩
    cases t with
    | ConsumeData s => simp [isConsumeData] at h
    | Finished => exact ⟨h, h⟩
    | Generate s =>
      constructor
      · simp only [AggregatorWorld.event, AggregatorWorld.generate_event]
        split <;> try rfl
        split <;> try rfl
        split <;> try rfl
        split <;> rfl
      · simp only [AggregatorWorld.process]
        split <;> rfl

/-- C5 witness. -/
theorem c5_witness :
    AggregatorTransform.to_generate (.ConsumeData ⟨(), none⟩) =
      .ok (.Generate ⟨(), false, none⟩) :=
  (c5_to_generate_unique_transition unitAggregator).1 ⟨(), none⟩

/-- C6: visiting a final-aggregation plan node first recurses into the
node's input, then appends the `resize(1)` fan-in, and only then the
final-aggregation transform pipe — the built trace is the input's trace
followed by exactly `[resize 1, final transform]` in that order (and an
input failure short-circuits the visit). -/
theorem c6_visit_aggregate_final_order (input : PlanNode) (p0 : List PipeAction) :
    visit_plan_node (.aggregatorFinalPlan input) p0 =
      (visit_plan_node input p0).map
        (fun p1 => p1 ++ [.resizePipe 1, .transformPipe .aggregatorFinalTransform]) := by
  simp only [visit_plan_node]
  cases visit_plan_node input p0 with
  | error e => rfl
  | ok p1 =>
    show Except.ok (p1 ++ [PipeAction.resizePipe 1] ++
      [PipeAction.transformPipe .aggregatorFinalTransform]) = _
    simp [Except.map, List.append_assoc]

/-- C6 witness. -/
theorem c6_witness :
    visit_plan_node (.aggregatorFinalPlan (.aggregatorPartialPlan .readSourcePlan)) [] =
      (visit_plan_node (.aggregatorPartialPlan .readSourcePlan) []).map
        (fun p1 => p1 ++ [.resizePipe 1, .transformPipe .aggregatorFinalTransform]) :=
  c6_visit_aggregate_final_order (.aggregatorPartialPlan .readSourcePlan) []

/-- C7: whenever the inner aggregator's `consume` (in `ConsumeData`, with
a pending batch) or `generate` (in `Generate`) returns an error,
`process()` returns exactly that error to its caller. -/
theorem c7_process_propagates_inner_errors {γ : Type} (A : Aggregator γ)
    (w : AggregatorWorld γ) (e : ErrorCode) :
    (∀ (s : ConsumeState γ) (b : DataBlock),
      w.transform = .ConsumeData s → s.input_data_block = some b →
        A.consume s.inner b = .error e → (w.process A).1 = .error e) ∧
    (∀ s : GenerateState γ,
      w.transform = .Generate s → A.generate s.inner = .error e →
        (w.process A).1 = .error e) := by
  constructor
  · intro s b ht hb hc
    rcases w with ⟨t, ip, op⟩
    simp only at ht
    subst ht
    simp [AggregatorWorld.process, hb, hc]
  · intro s ht hg
    rcases w with ⟨t, ip, op⟩
    simp only at ht
    subst ht
    simp [AggregatorWorld.process, hg]

/-- C7 witness. -/
theorem c7_witness :
    (AggregatorWorld.process failingAggregator
      ⟨.ConsumeData ⟨(), some ⟨["c"], [["v"]]⟩⟩, emptyPort, emptyPort⟩).1 =
      .error (.other 1001 "consume failed") :=
  (c7_process_propagates_inner_errors failingAggregator
    ⟨.ConsumeData ⟨(), some ⟨["c"], [["v"]]⟩⟩, emptyPort, emptyPort⟩
    (.other 1001 "consume failed")).1 ⟨(), some ⟨["c"], [["v"]]⟩⟩
    ⟨["c"], [["v"]]⟩ rfl rfl rfl

/-- C8: once `event()` has returned `Finished`, every later `event()`
call — after any interleaved sequence of `event()`/`process()` calls —
returns `Finished` again. -/
theorem c8_event_finished_absorbing {γ : Type} (A : Aggregator γ)
    (w : AggregatorWorld γ) (calls : List DriverCall)
    (h : (w.event).1 = .ok .Finished) :
    ((runCalls A (w.event).2 calls).event).1 = .ok .Finished := by
  have h1 : (w.event).2.transform = .Finished :=
    transform_finished_of_event_finished w h
  have h2 : (runCalls A (w.event).2 calls).transform = .Finished :=
    runCalls_finished A calls (w.event).2 h1
  rw [event_of_finished _ h2]

/-- C8 witness. -/
theorem c8_witness :
    ((runCalls unitAggregator
      (AggregatorWorld.event ⟨.Finished, emptyPort, emptyPort⟩).2
      [.callEvent, .callProcess, .callEvent]).event).1 = .ok .Finished :=
  c8_event_finished_absorbing unitAggregator ⟨.Finished, emptyPort, emptyPort⟩
    [.callEvent, .callProcess, .callEvent] rfl

/-- C9: a fresh `GithubSource` (`finish = false`) answers its first
`generate()` with exactly one `DataBlock` carrying all fetched columns
(or propagates the fetch error, the flag being set before the fetch), and
any source whose flag is set answers `generate()` with `none` and stays
unchanged — so at most one data batch is ever produced. -/
theorem c9_github_source_single_batch (schema : List String)
    (options : RepoTableOptions) (cols : List (List String)) (e : ErrorCode)
    (fetched fetched' : Except ErrorCode (List (List String))) :
    (fetched = .ok cols →
      GithubSource.generate fetched (GithubSource.create schema options) =
        (.ok (some (DataBlock.create schema cols)), ⟨true, schema, options⟩)) ∧
    (fetched = .error e →
      GithubSource.generate fetched (GithubSource.create schema options) =
        (.error e, ⟨true, schema, options⟩)) ∧
    (∀ s : GithubSource, s.finish = true →
      GithubSource.generate fetched' s = (.ok none, s)) := by
  refine ⟨?_, ?_, ?_⟩
  · intro h
    simp [GithubSource.generate, GithubSource.create, h]
  · intro h
    simp [GithubSource.generate, GithubSource.create, h]
  · intro s h
    simp [GithubSource.generate, h]

/-- C9 witness. -/
theorem c9_witness :
    GithubSource.generate (.ok [["row1"]])
      (GithubSource.create ["col"] ⟨"r", "o", "t", .Comments⟩) =
      (.ok (some (DataBlock.create ["col"] [["row1"]])),
        ⟨true, ["col"], ⟨"r", "o", "t", .Comments⟩⟩) :=
  (c9_github_source_single_batch ["col"] ⟨"r", "o", "t", .Comments⟩ [["row1"]]
    (.other 1 "") (.ok [["row1"]]) (.ok [])).1 rfl

/-- C10: converting a `RepoTableOptions` into the key/value map and
parsing it back succeeds and restores owner, repo, token and table_type;
and parsing any map fails exactly when one of the four keys is absent or
the table_type value does not name a supported table type. -/
theorem c10_repo_options_roundtrip :
    (∀ o : RepoTableOptions,
      RepoTableOptions.tryFromMap (RepoTableOptions.toMap o) = .ok o) ∧
    (∀ m : StringMap,
      (∃ e, RepoTableOptions.tryFromMap m = .error e) ↔
        (StringMap.get m "owner" = none ∨ StringMap.get m "repo" = none ∨
         StringMap.get m "token" = none ∨ StringMap.get m "table_type" = none ∨
         ∃ s, StringMap.get m "table_type" = some s ∧
           GithubTableType.fromStr s = none)) := by
  constructor
  · intro o
    rcases o with ⟨r, ow, t, tt⟩
    cases tt <;> rfl
  · intro m
    unfold RepoTableOptions.tryFromMap
    cases h1 : StringMap.get m "owner" <;> simp [h1]
    cases h2 : StringMap.get m "repo" <;> simp [h2]
    cases h3 : StringMap.get m "token" <;> simp [h3]
    cases h4 : StringMap.get m "table_type" <;> simp [h4]
    cases h5 : GithubTableType.fromStr _ <;> simp [h5]

/-- C10 witness. -/
theorem c10_witness :
    RepoTableOptions.tryFromMap
      (RepoTableOptions.toMap ⟨"databend", "datafuselabs", "tok", .Issues⟩) =
      .ok ⟨"databend", "datafuselabs", "tok", .Issues⟩ :=
  c10_repo_options_roundtrip.1 ⟨"databend", "datafuselabs", "tok", .Issues⟩
